import Mathlib

/-!
Shallow embedding of `src/examples/python/conditional_loop.py`.

The script defines a single function `main`:

```
def main():
    total = 0
    for i in range(10):
        value = i * 2
        total += value
        print(f"i={i}, value={value}, total={total}")

    print(f"Final total: {total}")
    return total
```

Standard output is modelled as a buffer `List String`, one entry per
`print` call; `print` writes its argument followed by a newline, so each
buffer entry stands for one newline-terminated line, and `stdoutText`
renders the buffer to the exact byte string written to standard output.
Python integers are unbounded, so they are embedded as `Int`.
`mainOn out` runs `main` against an arbitrary pre-existing output buffer
`out`; an actual invocation is `mainOn []`, abbreviated `main`.
-/

set_option maxRecDepth 20000

namespace ConditionalLoop

/-- One `print(s)` call: appends the newline-terminated line `s` to the
output buffer. -/
def printLine (out : List String) (s : String) : List String := out ++ [s]

/-- Line 7 of the source: `value = i * 2`. -/
def valueAt (i : Int) : Int := i * 2

/-- The per-iteration f-string `f"i={i}, value={value}, total={total}"`. -/
def iterLine (i value total : Int) : String :=
  "i=" ++ toString i ++ ", value=" ++ toString value ++ ", total=" ++ toString total

/-- The final f-string `f"Final total: {total}"`. -/
def finalLine (total : Int) : String := "Final total: " ++ toString total

/-- The `for i in range(10)` loop of `main`: processes the remaining
indices, carrying the accumulator `total` and the output buffer. -/
def loop : List Int → Int → List String → Int × List String
  | [], total, out => (total, out)
  | i :: rest, total, out =>
    let value := valueAt i
    let total' := total + value
    loop rest total' (printLine out (iterLine i value total'))

/-- The iteration sequence produced by `range(10)`. -/
def indices : List Int := (List.range 10).map Int.ofNat

/-- `main` run against a pre-existing output buffer `out`: returns the
function result and the final output buffer. -/
def mainOn (out : List String) : Int × List String :=
  let p := loop indices 0 out
  (p.1, printLine p.2 (finalLine p.1))

/-- One invocation of `main` (empty initial output buffer). -/
def main : Int × List String := mainOn []

/-- The value of `total` after the loop has run the first `n` iterations
(i.e. processed indices `0..n-1`). -/
def totalAfter (n : Nat) : Int := (loop (indices.take n) 0 []).1

/-- The exact text written to standard output for a buffer of
`print`-emitted lines: each line followed by a newline. -/
def stdoutText (out : List String) : String :=
  out.foldl (fun acc l => acc ++ l ++ "\n") ""

/-- The output lines only ever get appended: running the loop on a
pre-existing buffer `out` yields the same total and `out` followed by the
lines of a run on the empty buffer. -/
theorem loop_out_eq (l : List Int) : ∀ (t : Int) (out : List String),
    loop l t out = ((loop l t []).1, out ++ (loop l t []).2) := by
  induction l with
  | nil => intro t out; simp [loop]
  | cons i rest ih =>
    intro t out
    simp only [loop, printLine]
    rw [ih (t + valueAt i) (out ++ [iterLine i (valueAt i) (t + valueAt i)]),
        ih (t + valueAt i) ([] ++ [iterLine i (valueAt i) (t + valueAt i)])]
    simp

/-- Running `main` against any pre-existing output buffer yields the same
return value as a fresh run and appends exactly the fresh run's lines. -/
theorem mainOn_eq (out : List String) :
    mainOn out = (main.1, out ++ main.2) := by
  simp only [mainOn, main, printLine]
  rw [loop_out_eq indices 0 out]
  simp [List.append_assoc]

/-- C1: the entry function `main` takes no input and returns the integer
90: after the loop over indices 0 through 9 completes, the value returned
to the caller equals 90. -/
theorem main_returns_90 : main.1 = 90 := by decide

/-- C2: loop invariant of the accumulator — for every `k ≤ 9`, after the
loop body has processed indices `0..k` inclusive (that is, after `k+1`
iterations), `total` equals the sum of `2*i` for `i` in `0..k`, which is
`k*(k+1)`; in particular after `k = 9` the total is 90. -/
theorem total_invariant (k : Nat) (h : k ≤ 9) :
    totalAfter (k + 1) = ((List.range (k + 1)).map (fun i => 2 * (i : Int))).sum ∧
    totalAfter (k + 1) = (k : Int) * (k + 1) := by
  revert h; revert k; decide

/-- Witness for C2 at `k = 9`: the hypothesis holds and the loop total
after the last iteration is `9*10 = 90`. -/
theorem total_invariant_witness :
    totalAfter (9 + 1) = ((List.range (9 + 1)).map (fun i => 2 * (i : Int))).sum ∧
    totalAfter (9 + 1) = (9 : Int) * (9 + 1) :=
  total_invariant 9 (by decide)

/-- C3: for every iteration index `i` in `0..9`, the derived value
computed in that iteration equals `2*i`, and the line reported in that
iteration renders exactly that value (together with `i` and the updated
total). -/
theorem value_is_twice_index (i : Nat) (h : i < 10) :
    valueAt i = 2 * (i : Int) ∧
    main.2[i]? = some (iterLine i (2 * (i : Int)) (totalAfter (i + 1))) := by
  revert h; revert i; decide

/-- Witness for C3 at `i = 7`. -/
theorem value_is_twice_index_witness :
    valueAt 7 = 2 * ((7 : Nat) : Int) ∧
    main.2[7]? = some (iterLine 7 (2 * ((7 : Nat) : Int)) (totalAfter (7 + 1))) :=
  value_is_twice_index 7 (by decide)

/-- C4: a full run of `main` writes exactly 11 newline-terminated lines:
ten per-iteration lines of the form `i={i}, value={value}, total={total}`
with decimal integer renderings, followed by one final line
`Final total: {total}`; `stdoutText` confirms the exact newline-terminated
byte stream. -/
theorem output_shape :
    main.2.length = 11 ∧
    (∀ j : Nat, j < 10 →
      main.2[j]? = some (iterLine j (valueAt j) (totalAfter (j + 1)))) ∧
    main.2[10]? = some (finalLine main.1) ∧
    stdoutText main.2 =
      "i=0, value=0, total=0\ni=1, value=2, total=2\ni=2, value=4, total=6\n" ++
      "i=3, value=6, total=12\ni=4, value=8, total=20\ni=5, value=10, total=30\n" ++
      "i=6, value=12, total=42\ni=7, value=14, total=56\ni=8, value=16, total=72\n" ++
      "i=9, value=18, total=90\nFinal total: 90\n" := by
  refine ⟨by decide, by decide, by decide, by decide⟩

/-- C5: exact content of the distinguished output lines — the first line,
the last per-iteration line and the summary line. -/
theorem distinguished_lines :
    main.2[0]? = some "i=0, value=0, total=0" ∧
    main.2[9]? = some "i=9, value=18, total=90" ∧
    main.2[10]? = some "Final total: 90" := by
  decide

/-- C6: the integer returned by `main` equals the total printed in the
final `Final total:` line of the same run. -/
theorem return_matches_final_line :
    main.2.getLast? = some ("Final total: " ++ toString main.1) := by
  decide

/-- C7: determinism across runs — whatever output was already on the
stream before the call, any two invocations of `main` produce the same
sequence of new output lines and the same return value. -/
theorem deterministic (out0 out1 : List String) :
    (mainOn out0).1 = (mainOn out1).1 ∧
    (mainOn out0).2.drop out0.length = (mainOn out1).2.drop out1.length := by
  rw [mainOn_eq out0, mainOn_eq out1]
  simp

/-- Witness for C7 at the concrete prior buffers `["x"]` and `[]`. -/
theorem deterministic_witness :
    (mainOn ["x"]).1 = (mainOn []).1 ∧
    (mainOn ["x"]).2.drop (["x"] : List String).length =
      (mainOn []).2.drop ([] : List String).length :=
  deterministic ["x"] []

/-- C8: totality — `main` has no input and no fallible operation, so every
invocation (from any prior output state) completes and produces the one
definite result: return value 90 and the fixed 11 output lines appended. -/
theorem always_succeeds (out0 : List String) :
    (mainOn out0).1 = 90 ∧ (mainOn out0).2 = out0 ++ main.2 := by
  rw [mainOn_eq out0]
  refine ⟨?_, rfl⟩
  show main.1 = 90
  decide

/-- Witness for C8 at the concrete prior buffer `["y"]`. -/
theorem always_succeeds_witness :
    (mainOn ["y"]).1 = 90 ∧ (mainOn ["y"]).2 = ["y"] ++ main.2 :=
  always_succeeds ["y"]

/-- C9: termination and iteration order — the loop processes exactly the
ten indices `0,1,...,9` in strictly ascending order with no early exit
(one per-iteration line per index, ten in all), after which `main` prints
the final line as the last line and terminates. -/
theorem iteration_order :
    indices = [0, 1, 2, 3, 4, 5, 6, 7, 8, 9] ∧
    List.Pairwise (· < ·) indices ∧
    (loop indices 0 []).2.length = 10 ∧
    main.2.getLast? = some (finalLine main.1) := by
  decide

/-- C10: the accumulator is monotone and non-negative — `total` starts at
0, every iteration adds the non-negative value `2*i`, each update leaves
the total no smaller than before, and the total is at all times `≥ 0`. -/
theorem total_monotone_nonneg :
    totalAfter 0 = 0 ∧
    (∀ i ∈ indices, 0 ≤ valueAt i) ∧
    (∀ k : Nat, k ≤ 10 →
      0 ≤ totalAfter k ∧ (k < 10 → totalAfter k ≤ totalAfter (k + 1))) := by
  refine ⟨by decide, by decide, by decide⟩

end ConditionalLoop
